import Mathlib

/-!
# webapp-go: payment gateway adapter, persistence layer and receipt handler

A shallow embedding of `internal/cards/cards.go`, `internal/models/models.go`
and `cmd/web/handlers.go`.

Conventions of the embedding

* Go's `error` interface is the type `Error`; a possibly-nil `error` is
  `Option Error`, a possibly-nil pointer `*T` is `Option T`.
* Go's `int` and `int64` are mathematical integers together with the range
  predicate `IsInt64`; the conversions `int64(x)` and `int(x)` wrap modulo `2^64`.
* Calls that leave the program (the payment processor, the SQL driver, the
  form parser, the template renderer) are functions supplied by the caller, and
  every such call is appended to the `trace` of the `World`.
* The package-level variable `stripe.Key` is the field `Key` of the `World`.
-/

/-! ## Go basics -/

/-- Wrap an integer into the signed 64-bit range, as a Go conversion to `int64` does. -/
def wrap64 (x : Int) : Int := (x + 2 ^ 63) % 2 ^ 64 - 2 ^ 63

/-- Range of Go's `int64` (and of `int` on 64-bit targets). -/
def IsInt64 (x : Int) : Prop := -(2 ^ 63) ≤ x ∧ x < 2 ^ 63

instance (x : Int) : Decidable (IsInt64 x) := by
  unfold IsInt64; infer_instance

/-- Go conversion `int64(x)`. -/
def int64 (x : Int) : Int := wrap64 x

/-- Go conversion `int(x)` from an `int64`. -/
def int (x : Int) : Int := wrap64 x

/-! ## Package `stripe` (third-party client library): the parts the adapter uses -/

namespace stripe

/-- Processor error code, `stripe.ErrorCode` (a string type). -/
abbrev ErrorCode := String

/-- Modelled from the spec: the library constant `stripe.ErrorCodeCardDeclined`,
whose value is the processor code "card_declined". -/
def ErrorCodeCardDeclined : ErrorCode := "card_declined"

/-- Modelled from the spec: the library constant `stripe.ErrorCodeExpiredCard`,
the processor code for an expired card. -/
def ErrorCodeExpiredCard : ErrorCode := "expired_card"

/-- Modelled from the spec: the library constant `stripe.ErrorCodeIncorrectCVC`,
the processor code for an incorrect security code. -/
def ErrorCodeIncorrectCVC : ErrorCode := "incorrect_cvc"

/-- Modelled from the spec: the library constant `stripe.ErrorCodeIncorrectZip`,
the processor code for an incorrect postal code. -/
def ErrorCodeIncorrectZip : ErrorCode := "incorrect_zip"

/-- Modelled from the spec: the library constant `stripe.ErrorCodeAmountTooLarge`,
the processor code for an amount that is too large. -/
def ErrorCodeAmountTooLarge : ErrorCode := "amount_too_large"

/-- Modelled from the spec: the library constant `stripe.ErrorCodeAmountTooSmall`,
the processor code for an amount that is too small. -/
def ErrorCodeAmountTooSmall : ErrorCode := "amount_too_small"

/-- Modelled from the spec: the library constant `stripe.ErrorCodeBalanceInsufficient`,
the processor code for an insufficient balance. -/
def ErrorCodeBalanceInsufficient : ErrorCode := "balance_insufficient"

/-- Modelled from the spec: the library constant `stripe.ErrorCodePostalCodeInvalid`,
the processor code for an invalid postal code. -/
def ErrorCodePostalCodeInvalid : ErrorCode := "postal_code_invalid"

/-- Structured processor error, `stripe.Error`: the code and the fields kept for logging. -/
structure Error where
  Code : ErrorCode
  Msg : String
  HTTPStatusCode : Int
  deriving DecidableEq, Repr

/-- Request parameters, `stripe.PaymentIntentParams`: both fields are pointers. -/
structure PaymentIntentParams where
  Amount : Option Int
  Currency : Option String
  deriving DecidableEq, Repr

/-- Processor-assigned handle, `stripe.PaymentIntent`. -/
structure PaymentIntent where
  ID : String
  Amount : Int
  Currency : String
  ClientSecret : String
  deriving DecidableEq, Repr

/-- Helper `stripe.Int64`: a pointer to the given value. -/
def Int64 (v : Int) : Option Int := some v

/-- Helper `stripe.String`: a pointer to the given value. -/
def String (v : String) : Option String := some v

end stripe

/-! ## Errors, SQL values and records shared by the packages -/

/-- Instants, `time.Time`: whole seconds since 0001-01-01 00:00:00 UTC, the zero value
of the type, read in the UTC location. -/
abbrev Time := Nat

/-- Values exchanged with the SQL driver: statement arguments and result columns. An
integer is an `int64`, a text is a `string` or `[]byte`, `null` is the driver's `nil`. -/
inductive SqlValue where
  | int (v : Int)
  | text (s : String)
  | time (t : Time)
  | null
  deriving DecidableEq, Repr

/-- Go types of the destinations `GetWidget` scans into. -/
inductive DestKind where
  | int
  | string
  | time
  deriving DecidableEq, Repr

/-- Go `error` values: a structured processor error (`*stripe.Error`); an error known by
its text; or the error `Rows.Scan` builds when the column at `index`, holding `src`, does
not convert to a destination of type `dest` (the library words it
`sql: Scan error on column index ...`; index, source and destination identify it, its
wording is not reproduced). -/
inductive Error where
  | stripeError (e : stripe.Error)
  | other (msg : String)
  | scanColumn (index : Nat) (src : SqlValue) (dest : DestKind)
  deriving DecidableEq, Repr

namespace sql

/-- Outcome of a statement, `sql.Result`: what `LastInsertId()` returns. -/
structure Result where
  LastInsertId : Int × Option Error
  deriving DecidableEq, Repr

/-- Pending single-row query, `sql.Row`: the deferred error of the query, the rows of
the result set, the error met while fetching the first row (`rows.Err()`), and the error
of closing the rows. -/
structure Row where
  err : Option Error
  rows : List (List SqlValue)
  rowsErr : Option Error
  closeErr : Option Error
  deriving DecidableEq, Repr

/-- Sentinel `sql.ErrNoRows`. -/
def ErrNoRows : Error := Error.other "sql: no rows in result set"

/-- Connection pool, `sql.DB`, as the behaviour of the two calls the models make.
The context argument (a 3 second deadline) is part of that behaviour: a call that
exceeds it answers with an error. -/
structure DB where
  ExecContext : String → List SqlValue → Except Error Result
  QueryRowContext : String → List SqlValue → Row

end sql

namespace models

/-- Widget is the type for all widgets. -/
structure Widget where
  ID : Int
  Name : String
  Description : String
  InventoryLevel : Int
  Price : Int
  Image : String
  CreatedAt : Time
  UpdatedAt : Time
  deriving DecidableEq, Repr

/-- Order is the type for all Orders. -/
structure Order where
  ID : Int
  WidgetID : Int
  TransactionID : Int
  CustomerID : Int
  StatusID : Int
  Quantity : Int
  Amount : Int
  CreatedAt : Time
  UpdatedAt : Time
  deriving DecidableEq, Repr

/-- Transaction is the type for all Transactions. -/
structure Transaction where
  ID : Int
  Amount : Int
  Currency : String
  ExpiryMonth : Int
  ExpiryYear : Int
  LastFour : String
  BankReturnCode : String
  TransactionStatusID : Int
  CreatedAt : Time
  UpdatedAt : Time
  deriving DecidableEq, Repr

/-- User is the type for Users. -/
structure User where
  ID : Int
  FirstName : String
  LastName : String
  Email : String
  Password : String
  CreatedAt : Time
  UpdatedAt : Time
  deriving DecidableEq, Repr

/-- Customer is the type for Customers. -/
structure Customer where
  ID : Int
  FirstName : String
  LastName : String
  Email : String
  CreatedAt : Time
  UpdatedAt : Time
  deriving DecidableEq, Repr

/-- DBModel is the type for database connection values. -/
structure DBModel where
  DB : sql.DB

end models

namespace web

/-- Values stored in the rendering map, Go's `interface{}`: the two dynamic types the
handlers put there. -/
inductive Value where
  | str (s : String)
  | widget (w : models.Widget)
  deriving DecidableEq, Repr

/-- String-keyed map `map[string]interface{}`, as a list of entries with distinct keys. -/
abbrev Data := List (String × Value)

/-- Map assignment `m[k] = v`: overwrite the entry of `k`, or add one. -/
def Data.set : Data → String → Value → Data
  | [], k, v => [(k, v)]
  | (k', v') :: m, k, v => if k' = k then (k, v) :: m else (k', v') :: Data.set m k v

/-- Map lookup `m[k]`. -/
def Data.get : Data → String → Option Value
  | [], _ => none
  | (k', v') :: m, k => if k' = k then some v' else Data.get m k

/-- Modelled from the spec: the record `templateData` handed to the rendering
collaborator, declared outside the given sources; of its fields the handlers set only
`Data`, the mapping from field name to display value. -/
structure templateData where
  Data : Data
  deriving DecidableEq, Repr

end web

/-! ## The world: the processor key and the calls that left the program -/

/-- One call to an external collaborator, with what was sent and, where a later step
depends on it, what came back. -/
inductive Event where
  | paymentintentNew (key : String) (params : stripe.PaymentIntentParams)
      (res : Option stripe.PaymentIntent × Option Error)
  | ExecContext (qry : String) (args : List SqlValue) (res : Except Error sql.Result)
  | QueryRowContext (qry : String) (args : List SqlValue)
  | ParseForm
  | Println (err : Error)
  | renderTemplate (page : String) (td : web.templateData) (partials : List String)

/-- Program state outside the function at hand: the package variable `stripe.Key`
and the sequence of external calls made so far. -/
structure World where
  Key : String
  trace : List Event

/-- Record one external call. -/
def World.emit (w : World) (e : Event) : World := { w with trace := w.trace ++ [e] }

/-- Behaviour of the processor call `paymentintent.New`: it reads the process-wide key
and the parameters, and answers Go-style with a handle and an error. -/
abbrev Processor := String → stripe.PaymentIntentParams → Option stripe.PaymentIntent × Option Error

/-! ## Package `cards` -/

namespace cards

/-- Card Struct to hold Stripe API information. -/
structure Card where
  Secret : String
  Key : String
  Currency : String
  deriving DecidableEq, Repr

/-- Transaction struct to hold transaction details. -/
structure Transaction where
  TransactionStatusID : Int
  Amount : Int
  Currency : String
  LastFour : String
  BankReturnCode : String
  deriving DecidableEq, Repr

/-- Function `cardErrorMessage`: the user-facing message of a processor error code. -/
def cardErrorMessage (code : stripe.ErrorCode) : String :=
  if code = stripe.ErrorCodeCardDeclined then "Your card was declined"
  else if code = stripe.ErrorCodeExpiredCard then "Your card has expired"
  else if code = stripe.ErrorCodeIncorrectCVC then "Your card's security code is incorrect"
  else if code = stripe.ErrorCodeIncorrectZip then "Incorrect zip/postal code"
  else if code = stripe.ErrorCodeAmountTooLarge then "The amount is too large to charge to your card"
  else if code = stripe.ErrorCodeAmountTooSmall then "The amount is too small to charge to your card"
  else if code = stripe.ErrorCodeBalanceInsufficient then "Insufficient balance"
  else if code = stripe.ErrorCodePostalCodeInvalid then "Your postal code was invalid"
  else "Your card was declined."

/-- Results of `CreatePaymentIntent`: the handle, the message and the error. -/
abbrev ChargeResult := Option stripe.PaymentIntent × String × Option Error

/-- Method `CreatePaymentIntent`, the term used by Stripe to create a credit charge.
The receiver is a pointer, so the card is returned as part of the state after the call. -/
def CreatePaymentIntent (New : Processor) (c : Card) (currency : String) (amount : Int)
    (w : World) : ChargeResult × Card × World :=
  let w := { w with Key := c.Secret }
  let params : stripe.PaymentIntentParams :=
    { Amount := stripe.Int64 (int64 amount), Currency := stripe.String currency }
  let res := New w.Key params
  let w := w.emit (Event.paymentintentNew w.Key params res)
  match res with
  | (_, some err) =>
    let msg :=
      match err with
      | Error.stripeError stripeErr => cardErrorMessage stripeErr.Code
      | _ => ""
    ((none, msg, some err), c, w)
  | (pi, none) => ((pi, "", none), c, w)

/-- Method `Charge`: charge a credit card. -/
def Charge (New : Processor) (c : Card) (currency : String) (amount : Int)
    (w : World) : ChargeResult × Card × World :=
  CreatePaymentIntent New c currency amount w

end cards

/-! ## Packages `strconv` and `time` (standard library): what Scan uses of them -/

namespace strconv

/-- Value of a non-empty run of decimal digits. -/
def parseDigits : List Char → Option Nat
  | [] => none
  | cs => cs.foldl (fun acc c =>
      match acc with
      | some n => if c.isDigit then some (10 * n + (c.toNat - 48)) else none
      | none => none) (some 0)

/-- Function `strconv.ParseInt(s, 10, 64)`: an optional sign followed by decimal digits,
within the 64-bit range; `none` stands for its syntax and range errors. -/
def ParseInt (s : String) : Option Int :=
  let parsed : Option Int :=
    match s.toList with
    | '+' :: cs => (parseDigits cs).map Int.ofNat
    | '-' :: cs => (parseDigits cs).map (fun n => -Int.ofNat n)
    | cs => (parseDigits cs).map Int.ofNat
  match parsed with
  | some n => if IsInt64 n then some n else none
  | none => none

/-- Function `strconv.FormatInt(v, 10)`. -/
def FormatInt (v : Int) : String :=
  if v < 0 then "-" ++ toString v.natAbs else toString v.natAbs

end strconv

namespace time

/-- Decimal digits of `n`, padded with zeros on the left to at least `width` digits. -/
def pad (width n : Nat) : String :=
  let digits := toString n
  String.mk (List.replicate (width - digits.length) '0') ++ digits

/-- Year, month and day of the day that lies `d` days after 0001-01-01 in the proleptic
Gregorian calendar. -/
def civil (d : Nat) : Nat × Nat × Nat :=
  let z := d + 306
  let era := z / 146097
  let doe := z % 146097
  let yoe := (doe - doe / 1460 + doe / 36524 - doe / 146096) / 365
  let doy := doe - (365 * yoe + yoe / 4 - yoe / 100)
  let mp := (5 * doy + 2) / 153
  let day := doy - (153 * mp + 2) / 5 + 1
  let month := if mp < 10 then mp + 3 else mp - 9
  let year := if month ≤ 2 then yoe + era * 400 + 1 else yoe + era * 400
  (year, month, day)

/-- Rendering `t.Format(time.RFC3339Nano)` of a UTC instant of whole seconds. -/
def RFC3339Nano (t : Time) : String :=
  let (year, month, day) := civil (t / 86400)
  let secs := t % 86400
  pad 4 year ++ "-" ++ pad 2 month ++ "-" ++ pad 2 day ++ "T" ++
    pad 2 (secs / 3600) ++ ":" ++ pad 2 (secs % 3600 / 60) ++ ":" ++ pad 2 (secs % 60) ++ "Z"

end time

/-! ## Package `database/sql` (standard library): scanning a row -/

namespace sql

/-- Conversion of a column into an `int` destination: an integer is taken as it is, a
text is parsed as a decimal integer of 64 bits; an instant and NULL do not convert. -/
def convertInt : SqlValue → Option Int
  | SqlValue.int v => some v
  | SqlValue.text s => strconv.ParseInt s
  | SqlValue.time _ => none
  | SqlValue.null => none

/-- Conversion of a column into a `string` destination: a text is taken as it is, an
integer is written in decimal, an instant in the RFC 3339 layout; NULL does not convert. -/
def convertString : SqlValue → Option String
  | SqlValue.text s => some s
  | SqlValue.int v => some (strconv.FormatInt v)
  | SqlValue.time t => some (time.RFC3339Nano t)
  | SqlValue.null => none

/-- Conversion of a column into a `time.Time` destination: only an instant converts. -/
def convertTime : SqlValue → Option Time
  | SqlValue.time t => some t
  | _ => none

/-- One destination of a Scan: its Go type and the assignment of a converted column. -/
structure Dest (α : Type) where
  kind : DestKind
  assign : SqlValue → α → Option α

/-- Assign the columns to the destinations from left to right, starting at column
`index` and stopping at the first column that does not convert; the destinations
assigned before it keep their new values. -/
def assignAll {α : Type} : Nat → List (Dest α) → List SqlValue → α → α × Option Error
  | index, d :: ds, c :: cs, a =>
    match d.assign c a with
    | some a' => assignAll (index + 1) ds cs a'
    | none => (a, some (Error.scanColumn index c d.kind))
  | _, _, _, a => (a, none)

/-- Method `Row.Scan`: a deferred query error is returned as it is; an empty result set
gives the fetch error or else `ErrNoRows`; otherwise the first row is copied into the
destinations, and after a full copy the error of closing the rows is returned. -/
def Row.Scan {α : Type} (r : Row) (dest : List (Dest α)) (a : α) : α × Option Error :=
  match r.err with
  | some e => (a, some e)
  | none =>
    match r.rows with
    | [] =>
      match r.rowsErr with
      | some e => (a, some e)
      | none => (a, some ErrNoRows)
    | cols :: _ =>
      if cols.length ≠ dest.length then
        (a, some (Error.other ("sql: expected " ++ toString cols.length ++
          " destination arguments in Scan, not " ++ toString dest.length)))
      else
        match assignAll 0 dest cols a with
        | (a', some e) => (a', some e)
        | (a', none) => (a', r.closeErr)

end sql

/-! ## Package `models` -/

namespace models

/-- Zero value of `Widget`, the value of `var widget Widget`. -/
def Widget.zero : Widget :=
  { ID := 0, Name := "", Description := "", InventoryLevel := 0, Price := 0, Image := "",
    CreatedAt := 0, UpdatedAt := 0 }

/-- Statement text of `GetWidget`. -/
def GetWidget_qry : String :=
  "\n\tSELECT\n\t\tid,\n\t\tname,\n\t\tdescription,\n\t\tinventory_level,\n\t\tprice,\n\t\tcoalesce(image, ''),\n\t\tcreated_at,\n\t\tupdated_at\n\tFROM\n\t\twidgets\n\tWHERE\n\t\tid = ?\n\t"

/-- Statement text of `InsertTransaction`. -/
def InsertTransaction_qry : String :=
  "\n\tInsert Into\n\t\ttransactions\n\t\t(\n\t\t\tamount,\n\t\t\tcurrency,\n\t\t\tlast_four,\n\t\t\tbank_return_code,\n\t\t\ttransaction_status_id,\n\t\t\texpiry_month,\n\t\t\texpiry_year,\n\t\t\tcreated_at,\n\t\t\tupdated_at\n\t\t)\n\tValues\n\t\t(?, ?, ?, ?, ?, ?, ?, NOW(), NOW())\n\t"

/-- Statement text of `InsertOrder`. -/
def InsertOrder_qry : String :=
  "\n\tInsert Into\n\t\torders\n\t\t(\n\t\t\twidget_id,\n\t\t\ttransaction_id,\n\t\t\tstatus_id,\n\t\t\tquantity,\n\t\t\tamount,\n\t\t\tcustomer_id,\n\t\t\tcreated_at,\n\t\t\tupdated_at\n\t\t)\n\tValues\n\t\t(?, ?, ?, ?, ?, ?, NOW(), NOW())\n\t"

/-- Statement text of `InsertUser`. -/
def InsertUser_sql : String :=
  "\n\tInsert Into\n\t\tusers\n\t\t(\n\t\t\tfirst_name,\n\t\t\tlast_name,\n\t\t\temail,\n\t\t\tpassword_hash,\n\t\t\tcreated_at,\n\t\t\tupdated_at\n\t\t)\n\tValues\n\t\t(?, ?, ?, ?, NOW(), NOW())\n\t"

/-- Statement text of `InsertCustomer`. -/
def InsertCustomer_sql : String :=
  "\n\tInsert Into\n\t\tcustomers\n\t\t(\n\t\t\tfirst_name,\n\t\t\tlast_name,\n\t\t\temail,\n\t\t\tcreated_at,\n\t\t\tupdated_at\n\t\t)\n\tValues\n\t\t(?, ?, ?, NOW(), NOW())\n\t"

/-- Destinations of the Scan in `GetWidget`, in the order of the selected columns. -/
def GetWidget_dest : List (sql.Dest Widget) :=
  [ { kind := DestKind.int,
      assign := fun c widget => (sql.convertInt c).map (fun v => { widget with ID := v }) },
    { kind := DestKind.string,
      assign := fun c widget => (sql.convertString c).map (fun v => { widget with Name := v }) },
    { kind := DestKind.string,
      assign := fun c widget =>
        (sql.convertString c).map (fun v => { widget with Description := v }) },
    { kind := DestKind.int,
      assign := fun c widget =>
        (sql.convertInt c).map (fun v => { widget with InventoryLevel := v }) },
    { kind := DestKind.int,
      assign := fun c widget => (sql.convertInt c).map (fun v => { widget with Price := v }) },
    { kind := DestKind.string,
      assign := fun c widget => (sql.convertString c).map (fun v => { widget with Image := v }) },
    { kind := DestKind.time,
      assign := fun c widget => (sql.convertTime c).map (fun v => { widget with CreatedAt := v }) },
    { kind := DestKind.time,
      assign := fun c widget => (sql.convertTime c).map (fun v => { widget with UpdatedAt := v }) } ]

/-- Method `GetWidget`: interacts with the database and returns a Widget. -/
def GetWidget (m : DBModel) (id : Int) (w : World) : (Widget × Option Error) × World :=
  let widget := Widget.zero
  let args := [SqlValue.int id]
  let row := m.DB.QueryRowContext GetWidget_qry args
  let w := w.emit (Event.QueryRowContext GetWidget_qry args)
  match row.Scan GetWidget_dest widget with
  | (widget, some err) => ((widget, some err), w)
  | (widget, none) => ((widget, none), w)

/-- Method `InsertTransaction`: inserts a new transaction and returns its DB ID. -/
def InsertTransaction (m : DBModel) (txn : Transaction) (w : World) :
    (Int × Option Error) × World :=
  let args := [SqlValue.int txn.Amount, SqlValue.text txn.Currency, SqlValue.text txn.LastFour,
    SqlValue.text txn.BankReturnCode, SqlValue.int txn.TransactionStatusID,
    SqlValue.int txn.ExpiryMonth, SqlValue.int txn.ExpiryYear]
  let res := m.DB.ExecContext InsertTransaction_qry args
  let w := w.emit (Event.ExecContext InsertTransaction_qry args res)
  match res with
  | Except.error err => ((0, some err), w)
  | Except.ok result =>
    match result.LastInsertId with
    | (_, some err) => ((0, some err), w)
    | (id, none) => ((int id, none), w)

/-- Method `InsertOrder`: inserts a new order and returns its ID from the database. -/
def InsertOrder (m : DBModel) (order : Order) (w : World) : (Int × Option Error) × World :=
  let args := [SqlValue.int order.WidgetID, SqlValue.int order.TransactionID,
    SqlValue.int order.StatusID, SqlValue.int order.Quantity, SqlValue.int order.Amount,
    SqlValue.int order.CustomerID]
  let res := m.DB.ExecContext InsertOrder_qry args
  let w := w.emit (Event.ExecContext InsertOrder_qry args res)
  match res with
  | Except.error err => ((0, some err), w)
  | Except.ok result =>
    match result.LastInsertId with
    | (_, some err) => ((0, some err), w)
    | (id, none) => ((int id, none), w)

/-- Method `InsertUser`: inserts a new user and returns its ID from the database. -/
def InsertUser (m : DBModel) (user : User) (w : World) : (Int × Option Error) × World :=
  let args := [SqlValue.text user.FirstName, SqlValue.text user.LastName,
    SqlValue.text user.Email, SqlValue.text user.Password]
  let res := m.DB.ExecContext InsertUser_sql args
  let w := w.emit (Event.ExecContext InsertUser_sql args res)
  match res with
  | Except.error err => ((0, some err), w)
  | Except.ok result =>
    match result.LastInsertId with
    | (_, some err) => ((0, some err), w)
    | (id, none) => ((int id, none), w)

/-- Method `InsertCustomer`: inserts a new customer to the DB and returns their ID. -/
def InsertCustomer (m : DBModel) (customer : Customer) (w : World) :
    (Int × Option Error) × World :=
  let args := [SqlValue.text customer.FirstName, SqlValue.text customer.LastName,
    SqlValue.text customer.Email]
  let res := m.DB.ExecContext InsertCustomer_sql args
  let w := w.emit (Event.ExecContext InsertCustomer_sql args res)
  match res with
  | Except.error err => ((0, some err), w)
  | Except.ok result =>
    match result.LastInsertId with
    | (_, some err) => ((0, some err), w)
    | (id, none) => ((int id, none), w)

end models

/-! ## The relational store behind `GetWidget` -/

namespace store

/-- Modelled from the spec: one row of the table `widgets` of the relational store
(id, name, description, inventory level, price in minor currency units, optional image
reference, created and updated timestamps). -/
structure WidgetRow where
  id : Int
  name : String
  description : String
  inventory_level : Int
  price : Int
  image : Option String
  created_at : Time
  updated_at : Time
  deriving DecidableEq, Repr

/-- Modelled from the spec: the content of the table `widgets`. -/
structure Store where
  widgets : List WidgetRow
  deriving DecidableEq, Repr

/-- Columns the statement of `GetWidget` selects from a row; `coalesce(image, '')` turns
a missing image into the empty text. -/
def WidgetRow.selected (r : WidgetRow) : List SqlValue :=
  [SqlValue.int r.id, SqlValue.text r.name, SqlValue.text r.description,
   SqlValue.int r.inventory_level, SqlValue.int r.price, SqlValue.text (r.image.getD ""),
   SqlValue.time r.created_at, SqlValue.time r.updated_at]

/-- Answer of the store to a single-row query: the statement of `GetWidget` with an
integer argument selects the rows whose `id` equals it; anything else is an error. -/
def Store.QueryRowContext (s : Store) (qry : String) (args : List SqlValue) : sql.Row :=
  if qry = models.GetWidget_qry then
    match args with
    | [SqlValue.int id] =>
      { err := none, rows := (s.widgets.filter (fun r => decide (r.id = id))).map WidgetRow.selected,
        rowsErr := none, closeErr := none }
    | _ => { err := some (Error.other "sql: wrong arguments for the statement"), rows := [],
             rowsErr := none, closeErr := none }
  else { err := some (Error.other "sql: unknown statement"), rows := [],
         rowsErr := none, closeErr := none }

end store

/-! ## Package `main` (`cmd/web`): the handlers -/

namespace web

/-- Parsed form, `url.Values`: the values submitted under each key, none when the key
is absent. -/
abbrev Values := String → List String

/-- Method `Values.Get`: the first value of the key, or the empty string. -/
def Values.Get (v : Values) (key : String) : String :=
  match v key with
  | [] => ""
  | x :: _ => x

/-- Inbound request, `http.Request`: what `r.ParseForm()` leaves in `r.Form` and the
error it returns. -/
structure Request where
  ParseForm : Values × Option Error

/-- Modelled from the spec: the receiver `application`, declared outside the given
sources. Its method `renderTemplate` is the rendering collaborator, which receives the
page name, the template data and the partials and answers with an error or nil; its
`errorLog` is the target of the `Println` events. -/
structure application where
  renderTemplate : Request → String → templateData → List String → Option Error

/-- Handler `VirtualTerminal`. -/
def VirtualTerminal (app : application) (r : Request) (w : World) : World :=
  let td : templateData := { Data := [] }
  let w := w.emit (Event.renderTemplate "terminal" td ["stripe-js"])
  match app.renderTemplate r "terminal" td ["stripe-js"] with
  | some err => w.emit (Event.Println err)
  | none => w

/-- Handler `Receipt`. -/
def Receipt (app : application) (r : Request) (w : World) : World :=
  let w := w.emit Event.ParseForm
  match r.ParseForm with
  | (_, some err) => w.emit (Event.Println err)
  | (Form, none) =>
    -- Read the posted data
    let cardHolder := Values.Get Form "cardholder-name"
    let email := Values.Get Form "cardholder-email"
    let paymentIntent := Values.Get Form "payment-intent"
    let paymentMethod := Values.Get Form "payment-method"
    let paymentAmount := Values.Get Form "payment-amount"
    let paymentCurrency := Values.Get Form "payment-currency"
    let data : Data := []
    let data := data.set "cardholder" (Value.str cardHolder)
    let data := data.set "email" (Value.str email)
    let data := data.set "pi" (Value.str paymentIntent)
    let data := data.set "pm" (Value.str paymentMethod)
    let data := data.set "pa" (Value.str paymentAmount)
    let data := data.set "pc" (Value.str paymentCurrency)
    let td : templateData := { Data := data }
    let w := w.emit (Event.renderTemplate "receipt" td [])
    match app.renderTemplate r "receipt" td [] with
    | some err => w.emit (Event.Println err)
    | none => w

/-- Handler `ChargeOnce`: displays the page to buy a single widget. -/
def ChargeOnce (app : application) (r : Request) (w : World) : World :=
  let widget : models.Widget :=
    { ID := 1, Name := "Custom Widget", Description := "A very nice widget",
      InventoryLevel := 10, Price := 1000, Image := "", CreatedAt := 0, UpdatedAt := 0 }
  let data : Data := []
  let data := data.set "widget" (Value.widget widget)
  let td : templateData := { Data := data }
  let w := w.emit (Event.renderTemplate "buy-once" td ["stripe-js"])
  match app.renderTemplate r "buy-once" td ["stripe-js"] with
  | some err => w.emit (Event.Println err)
  | none => w

end web

/-! ## Properties of traces -/

/-- The event is a statement executed against the relational store (a database write). -/
def Event.isWrite : Event → Bool
  | Event.ExecContext _ _ _ => true
  | _ => false

/-- The event is a call to the payment processor. -/
def Event.isProcessorCall : Event → Bool
  | Event.paymentintentNew _ _ _ => true
  | _ => false

/-- The event is a call to the payment processor that came back with a nil error. -/
def Event.isSuccessfulCharge : Event → Bool
  | Event.paymentintentNew _ _ (_, none) => true
  | _ => false

/-- The event is a call to the rendering collaborator. -/
def Event.isRender : Event → Bool
  | Event.renderTemplate _ _ _ => true
  | _ => false

/-- Identifier a transaction insert produced, when the event is a successful one. -/
def Event.insertedTransaction : Event → Option Int
  | Event.ExecContext qry _ (Except.ok result) =>
    if qry = models.InsertTransaction_qry then
      match result.LastInsertId with
      | (id, none) => some (int id)
      | _ => none
    else none
  | _ => none

/-- Transaction id an order insert references, when the event is an order insert. -/
def Event.referencedTransaction : Event → Option Int
  | Event.ExecContext qry (_ :: SqlValue.int t :: _) _ =>
    if qry = models.InsertOrder_qry then some t else none
  | _ => none

/-- Scan of a trace: `charged` tells whether a processor call has succeeded so far,
`txns` lists the transaction ids inserted so far. Every database write must come after
a successful charge, and every order insert must reference a transaction id inserted
before it. -/
def guardedFrom (charged : Bool) (txns : List Int) : List Event → Bool
  | [] => true
  | e :: es =>
    let charged' := e.isSuccessfulCharge || charged
    let txns' :=
      match e.insertedTransaction with
      | some id => id :: txns
      | none => txns
    (!e.isWrite || charged) &&
    (match e.referencedTransaction with
     | some t => decide (t ∈ txns)
     | none => true) &&
    guardedFrom charged' txns' es

/-- A trace of one execution keeps the write discipline of the checkout workflow. -/
def writesGuarded (es : List Event) : Bool := guardedFrom false [] es

/-- Events a handler adds when it logs a possibly-nil error with `errorLog.Println`. -/
def logged : Option Error → List Event
  | some err => [Event.Println err]
  | none => []

/-- The display fields of the receipt, as the specification lists them: the key of the
rendering map and the form field whose submitted value it shows. -/
def web.receiptFields : List (String × String) :=
  [("cardholder", "cardholder-name"), ("email", "cardholder-email"), ("pi", "payment-intent"),
   ("pm", "payment-method"), ("pa", "payment-amount"), ("pc", "payment-currency")]

/-- The rendering map the specification describes for a parsed form: one entry per
display field, holding the submitted string as it is. -/
def web.receiptData (Form : web.Values) : web.Data :=
  web.receiptFields.map (fun kf => (kf.1, web.Value.str (web.Values.Get Form kf.2)))

/-- The widget a stored row denotes: each field is the stored value, a missing image is
the empty string. -/
def store.WidgetRow.toWidget (r : store.WidgetRow) : models.Widget :=
  { ID := r.id, Name := r.name, Description := r.description,
    InventoryLevel := r.inventory_level, Price := r.price, Image := r.image.getD "",
    CreatedAt := r.created_at, UpdatedAt := r.updated_at }

/-! ## Sample inputs -/

namespace sample

/-- A store connection whose exec always succeeds and assigns the id 7. -/
def db : models.DBModel :=
  { DB := { ExecContext := fun _ _ => Except.ok { LastInsertId := (7, none) },
            QueryRowContext := fun _ _ => { err := none, rows := [], rowsErr := none, closeErr := none } } }

/-- A transaction of 1000 minor units in "usd". -/
def txn : models.Transaction :=
  { ID := 0, Amount := 1000, Currency := "usd", ExpiryMonth := 12, ExpiryYear := 2030,
    LastFour := "4242", BankReturnCode := "ch_1", TransactionStatusID := 2,
    CreatedAt := 0, UpdatedAt := 0 }

/-- An order of one widget. -/
def order : models.Order :=
  { ID := 0, WidgetID := 1, TransactionID := 7, CustomerID := 3, StatusID := 1, Quantity := 1,
    Amount := 1000, CreatedAt := 0, UpdatedAt := 0 }

/-- A user with a hashed password. -/
def user : models.User :=
  { ID := 0, FirstName := "Ada", LastName := "Lovelace", Email := "ada@example.com",
    Password := "$2a$12$hash", CreatedAt := 0, UpdatedAt := 0 }

/-- A customer. -/
def customer : models.Customer :=
  { ID := 0, FirstName := "Ada", LastName := "Lovelace", Email := "ada@example.com",
    CreatedAt := 0, UpdatedAt := 0 }

/-- The stored row of widget 1, priced 1000, without an image. -/
def widgetRow : store.WidgetRow :=
  { id := 1, name := "Custom Widget", description := "A very nice widget",
    inventory_level := 10, price := 1000, image := none, created_at := 5, updated_at := 6 }

/-- A store holding the widgets 1 and 2. -/
def widgets : store.Store :=
  { widgets := [widgetRow,
      { id := 2, name := "Plan", description := "A subscription", inventory_level := 3,
        price := 2000, image := some "plan.png", created_at := 7, updated_at := 8 }] }

/-- A connection that answers queries from the sample store. -/
def storeDb : models.DBModel :=
  { DB := { ExecContext := fun _ _ => Except.error (Error.other "read only"),
            QueryRowContext := widgets.QueryRowContext } }

/-- A submitted form with the six fields of the receipt. -/
def form : web.Values := fun key =>
  if key = "cardholder-name" then ["Ada Lovelace"]
  else if key = "cardholder-email" then ["ada@example.com"]
  else if key = "payment-intent" then ["pi_1"]
  else if key = "payment-method" then ["pm_1"]
  else if key = "payment-amount" then ["1000"]
  else if key = "payment-currency" then ["usd"]
  else []

/-- A request whose form parses. -/
def request : web.Request := { ParseForm := (form, none) }

/-- A request whose form body is malformed. -/
def badRequest : web.Request :=
  { ParseForm := (fun _ => [], some (Error.other "invalid URL escape")) }

/-- An application whose renderer succeeds. -/
def app : web.application := { renderTemplate := fun _ _ _ _ => none }

/-- A card of the sample merchant. -/
def card : cards.Card := { Secret := "sk_test", Key := "pk_test", Currency := "usd" }

/-- A processor that declines every request with the code "card_declined". -/
def declining : Processor :=
  fun _ _ => (none, some (Error.stripeError ⟨"card_declined", "declined", 402⟩))

/-- A processor that accepts every request. -/
def accepting : Processor :=
  fun _ p => (some ⟨"pi_1", p.Amount.getD 0, p.Currency.getD "", "secret"⟩, none)

/-- The world before the first call. -/
def world : World := { Key := "", trace := [] }

end sample

/-! ## Auxiliary lemmas -/

/-- Wrapping is the identity on the 64-bit range. -/
theorem wrap64_of_isInt64 (x : Int) (h : IsInt64 x) : wrap64 x = x := by
  unfold IsInt64 at h
  unfold wrap64
  omega

/-- What `CreatePaymentIntent` does to the state, whatever the processor answers. -/
theorem CreatePaymentIntent_state (New : Processor) (c : cards.Card) (currency : String)
    (amount : Int) (w : World) :
    (cards.CreatePaymentIntent New c currency amount w).2 =
      (c, { Key := c.Secret,
            trace := w.trace ++ [Event.paymentintentNew c.Secret
              { Amount := some (int64 amount), Currency := some currency }
              (New c.Secret { Amount := some (int64 amount), Currency := some currency })] }) := by
  unfold cards.CreatePaymentIntent
  simp only [World.emit, stripe.Int64, stripe.String]
  split <;> rfl

/-- A failed processor call whose error is not a structured processor error gives the
empty message, whatever kind of error it is. -/
theorem CreatePaymentIntent_unstructured_message (New : Processor) (c : cards.Card)
    (currency : String) (amount : Int) (w : World) (pi : Option stripe.PaymentIntent)
    (err : Error)
    (h : New c.Secret { Amount := some (int64 amount), Currency := some currency } = (pi, some err))
    (hns : ∀ e : stripe.Error, err ≠ Error.stripeError e) :
    (cards.CreatePaymentIntent New c currency amount w).1 = (none, "", some err) := by
  cases err with
  | stripeError e => exact absurd rfl (hns e)
  | other msg =>
    unfold cards.CreatePaymentIntent
    simp only [World.emit, stripe.Int64, stripe.String, h]
  | scanColumn index src dest =>
    unfold cards.CreatePaymentIntent
    simp only [World.emit, stripe.Int64, stripe.String, h]

/-! ## The payment gateway adapter -/

/-- C1: for each of the eight supported processor error codes `cardErrorMessage` returns
the fixed message of the table. -/
theorem cardErrorMessage_supported :
    cards.cardErrorMessage "card_declined" = "Your card was declined" ∧
    cards.cardErrorMessage "expired_card" = "Your card has expired" ∧
    cards.cardErrorMessage "incorrect_cvc" = "Your card's security code is incorrect" ∧
    cards.cardErrorMessage "incorrect_zip" = "Incorrect zip/postal code" ∧
    cards.cardErrorMessage "amount_too_large" = "The amount is too large to charge to your card" ∧
    cards.cardErrorMessage "amount_too_small" = "The amount is too small to charge to your card" ∧
    cards.cardErrorMessage "balance_insufficient" = "Insufficient balance" ∧
    cards.cardErrorMessage "postal_code_invalid" = "Your postal code was invalid" := by
  refine ⟨?_, ?_, ?_, ?_, ?_, ?_, ?_, ?_⟩ <;> decide

/-- C2: for every processor error code outside the eight supported ones (the empty code
included) `cardErrorMessage` returns the one generic fallback message, which is not empty. -/
theorem cardErrorMessage_fallback (code : stripe.ErrorCode)
    (h : code ∉ ["card_declined", "expired_card", "incorrect_cvc", "incorrect_zip",
      "amount_too_large", "amount_too_small", "balance_insufficient", "postal_code_invalid"]) :
    cards.cardErrorMessage code = "Your card was declined." ∧ cards.cardErrorMessage code ≠ "" := by
  simp only [List.mem_cons, List.mem_singleton, List.not_mem_nil, or_false, not_or] at h
  obtain ⟨h1, h2, h3, h4, h5, h6, h7, h8⟩ := h
  have key : cards.cardErrorMessage code = "Your card was declined." := by
    simp [cards.cardErrorMessage, stripe.ErrorCodeCardDeclined, stripe.ErrorCodeExpiredCard,
      stripe.ErrorCodeIncorrectCVC, stripe.ErrorCodeIncorrectZip, stripe.ErrorCodeAmountTooLarge,
      stripe.ErrorCodeAmountTooSmall, stripe.ErrorCodeBalanceInsufficient,
      stripe.ErrorCodePostalCodeInvalid, h1, h2, h3, h4, h5, h6, h7, h8]
  refine ⟨key, ?_⟩
  rw [key]
  decide

/-- Witness of C2 at the empty code. -/
theorem cardErrorMessage_fallback_witness :
    cards.cardErrorMessage "" = "Your card was declined." ∧ cards.cardErrorMessage "" ≠ "" :=
  cardErrorMessage_fallback "" (by decide)

/-- C3: when the processor call fails with error `err`, `CreatePaymentIntent` and `Charge`
return no handle (even if the processor sent one along), the error `err` itself, and as
message `cardErrorMessage c` when `err` is a structured processor error with code `c`;
an error of any other kind gives the empty message. -/
theorem CreatePaymentIntent_failure (New : Processor) (c : cards.Card) (currency : String)
    (amount : Int) (w : World) (pi : Option stripe.PaymentIntent) (err : Error)
    (h : New c.Secret { Amount := some (int64 amount), Currency := some currency } = (pi, some err)) :
    (cards.CreatePaymentIntent New c currency amount w).1.1 = none ∧
    (cards.CreatePaymentIntent New c currency amount w).1.2.2 = some err ∧
    (∀ e : stripe.Error, err = Error.stripeError e →
      (cards.CreatePaymentIntent New c currency amount w).1.2.1 = cards.cardErrorMessage e.Code) ∧
    (∀ msg : String, err = Error.other msg →
      (cards.CreatePaymentIntent New c currency amount w).1.2.1 = "") ∧
    cards.Charge New c currency amount w = cards.CreatePaymentIntent New c currency amount w := by
  cases err with
  | stripeError e0 =>
    have hr : (cards.CreatePaymentIntent New c currency amount w).1 =
        (none, cards.cardErrorMessage e0.Code, some (Error.stripeError e0)) := by
      unfold cards.CreatePaymentIntent
      simp only [World.emit, stripe.Int64, stripe.String, h]
    refine ⟨by rw [hr], by rw [hr], ?_, ?_, rfl⟩
    · intro e he
      cases he
      rw [hr]
    · intro msg he
      cases he
  | other m0 =>
    have hr : (cards.CreatePaymentIntent New c currency amount w).1 =
        (none, "", some (Error.other m0)) := by
      unfold cards.CreatePaymentIntent
      simp only [World.emit, stripe.Int64, stripe.String, h]
    refine ⟨by rw [hr], by rw [hr], ?_, ?_, rfl⟩
    · intro e he
      cases he
    · intro msg _
      rw [hr]
  | scanColumn index src dest =>
    refine ⟨?_, ?_, ?_, ?_, rfl⟩
    · unfold cards.CreatePaymentIntent
      simp only [World.emit, stripe.Int64, stripe.String, h]
    · unfold cards.CreatePaymentIntent
      simp only [World.emit, stripe.Int64, stripe.String, h]
    · intro e he
      cases he
    · intro msg he
      cases he

/-- Witness of C3: a processor that declines every request with code "expired_card". -/
theorem CreatePaymentIntent_failure_witness :
    (cards.CreatePaymentIntent
        (fun _ _ => (none, some (Error.stripeError ⟨"expired_card", "expired", 402⟩)))
        ⟨"sk_test", "pk_test", "usd"⟩ "usd" 1000 ⟨"", []⟩).1.1 = none ∧
    (cards.CreatePaymentIntent
        (fun _ _ => (none, some (Error.stripeError ⟨"expired_card", "expired", 402⟩)))
        ⟨"sk_test", "pk_test", "usd"⟩ "usd" 1000 ⟨"", []⟩).1.2.1 = "Your card has expired" := by
  have h := CreatePaymentIntent_failure
    (fun _ _ => (none, some (Error.stripeError ⟨"expired_card", "expired", 402⟩)))
    ⟨"sk_test", "pk_test", "usd"⟩ "usd" 1000 ⟨"", []⟩ none
    (Error.stripeError ⟨"expired_card", "expired", 402⟩) rfl
  refine ⟨h.1, ?_⟩
  rw [h.2.2.1 ⟨"expired_card", "expired", 402⟩ rfl]
  decide

/-- C4: when the processor call succeeds with handle `pi`, `CreatePaymentIntent` and
`Charge` return exactly `pi`, the empty message and a nil error, and the one request
sent to the processor carries the given amount and currency unchanged. -/
theorem CreatePaymentIntent_success (New : Processor) (c : cards.Card) (currency : String)
    (amount : Int) (w : World) (pi : Option stripe.PaymentIntent) (hamount : IsInt64 amount)
    (h : New c.Secret { Amount := some amount, Currency := some currency } = (pi, none)) :
    (cards.CreatePaymentIntent New c currency amount w).1 = (pi, "", none) ∧
    (cards.Charge New c currency amount w).1 = (pi, "", none) ∧
    (cards.CreatePaymentIntent New c currency amount w).2.2.trace =
      w.trace ++ [Event.paymentintentNew c.Secret
        { Amount := some amount, Currency := some currency } (pi, none)] := by
  have hw : int64 amount = amount := wrap64_of_isInt64 amount hamount
  have hr : (cards.CreatePaymentIntent New c currency amount w).1 = (pi, "", none) := by
    unfold cards.CreatePaymentIntent
    simp only [World.emit, stripe.Int64, stripe.String, hw, h]
  refine ⟨hr, hr, ?_⟩
  rw [CreatePaymentIntent_state, hw, h]

/-- Witness of C4: a processor that accepts every request and echoes it in the handle. -/
theorem CreatePaymentIntent_success_witness :
    (cards.CreatePaymentIntent
        (fun _ p => (some ⟨"pi_1", p.Amount.getD 0, p.Currency.getD "", "secret"⟩, none))
        ⟨"sk_test", "pk_test", "usd"⟩ "usd" 1000 ⟨"", []⟩).1 =
      (some ⟨"pi_1", 1000, "usd", "secret"⟩, "", none) :=
  (CreatePaymentIntent_success
    (fun _ p => (some ⟨"pi_1", p.Amount.getD 0, p.Currency.getD "", "secret"⟩, none))
    ⟨"sk_test", "pk_test", "usd"⟩ "usd" 1000 ⟨"", []⟩
    (some ⟨"pi_1", 1000, "usd", "secret"⟩) (by decide) rfl).1

/-- C5, as stated, fails: a call with a card whose secret differs from the process-wide
processor key changes that key. -/
theorem CreatePaymentIntent_overwrites_key :
    (cards.CreatePaymentIntent (fun _ _ => (none, none)) ⟨"sk_B", "pk_B", "usd"⟩ "usd" 1000
        ⟨"sk_A", []⟩).2.2.Key = "sk_B" ∧
    (cards.CreatePaymentIntent (fun _ _ => (none, none)) ⟨"sk_B", "pk_B", "usd"⟩ "usd" 1000
        ⟨"sk_A", []⟩).2.2.Key ≠ (⟨"sk_A", []⟩ : World).Key := by
  constructor
  · rfl
  · decide

/-- C5, amended: `CreatePaymentIntent` assigns the card's secret to the process-wide
processor key; apart from that assignment and the one outbound processor request it
changes nothing: the card's fields are as before and the earlier calls of the trace are
kept in order. -/
theorem CreatePaymentIntent_frame (New : Processor) (c : cards.Card) (currency : String)
    (amount : Int) (w : World) :
    (cards.CreatePaymentIntent New c currency amount w).2.1 = c ∧
    (cards.CreatePaymentIntent New c currency amount w).2.2.Key = c.Secret ∧
    (∃ e, e.isProcessorCall = true ∧
      (cards.CreatePaymentIntent New c currency amount w).2.2.trace = w.trace ++ [e]) := by
  rw [CreatePaymentIntent_state]
  refine ⟨rfl, rfl, ⟨_, ?_, rfl⟩⟩
  rfl

/-- C6, as stated, fails: charging the amount 0 sends a creation request that carries the
amount 0, and so does the amount -5. -/
theorem Charge_sends_nonpositive_amount :
    (cards.Charge (fun _ _ => (none, none)) ⟨"sk_test", "pk_test", "usd"⟩ "usd" 0
        ⟨"", []⟩).2.2.trace =
      [Event.paymentintentNew "sk_test" { Amount := some 0, Currency := some "usd" } (none, none)] ∧
    (cards.Charge (fun _ _ => (none, none)) ⟨"sk_test", "pk_test", "usd"⟩ "usd" (-5)
        ⟨"", []⟩).2.2.trace =
      [Event.paymentintentNew "sk_test" { Amount := some (-5), Currency := some "usd" } (none, none)] := by
  constructor <;> rfl

/-- C6, amended: the adapter does not guard the amount. For every amount of the integer
range, positive or not, and every currency, `Charge` and `CreatePaymentIntent` send
exactly one creation request, and it carries that amount and currency. -/
theorem Charge_sends_every_amount (New : Processor) (c : cards.Card) (currency : String)
    (amount : Int) (w : World) (hamount : IsInt64 amount) :
    (cards.Charge New c currency amount w).2.2.trace =
      w.trace ++ [Event.paymentintentNew c.Secret
        { Amount := some amount, Currency := some currency }
        (New c.Secret { Amount := some amount, Currency := some currency })] ∧
    (cards.CreatePaymentIntent New c currency amount w).2.2.trace =
      (cards.Charge New c currency amount w).2.2.trace := by
  have hw : int64 amount = amount := wrap64_of_isInt64 amount hamount
  refine ⟨?_, rfl⟩
  show (cards.CreatePaymentIntent New c currency amount w).2.2.trace = _
  rw [CreatePaymentIntent_state, hw]

/-- Witness of the amended C6 at the amount -5. -/
theorem Charge_sends_every_amount_witness :
    (cards.Charge (fun _ _ => (none, none)) ⟨"sk_test", "pk_test", "usd"⟩ "usd" (-5)
        ⟨"", []⟩).2.2.trace =
      [] ++ [Event.paymentintentNew "sk_test" { Amount := some (-5), Currency := some "usd" }
        (none, none)] :=
  (Charge_sends_every_amount (fun _ _ => (none, none)) ⟨"sk_test", "pk_test", "usd"⟩ "usd" (-5)
    ⟨"", []⟩ (by decide)).1

/-! ## The handlers and the write discipline -/

/-- Trace of `VirtualTerminal`: one render call, then the log entry of its error. -/
theorem VirtualTerminal_trace (app : web.application) (r : web.Request) (w : World) :
    (web.VirtualTerminal app r w).trace =
      w.trace ++ (Event.renderTemplate "terminal" { Data := [] } ["stripe-js"] ::
        logged (app.renderTemplate r "terminal" { Data := [] } ["stripe-js"])) := by
  unfold web.VirtualTerminal
  simp only [World.emit]
  split <;> rename_i h <;> simp [h, logged]

/-- Trace of `ChargeOnce`: one render call, then the log entry of its error. -/
theorem ChargeOnce_trace (app : web.application) (r : web.Request) (w : World) :
    ∃ td, (web.ChargeOnce app r w).trace =
      w.trace ++ (Event.renderTemplate "buy-once" td ["stripe-js"] ::
        logged (app.renderTemplate r "buy-once" td ["stripe-js"])) := by
  refine ⟨{ Data := web.Data.set [] "widget" (web.Value.widget
    { ID := 1, Name := "Custom Widget", Description := "A very nice widget",
      InventoryLevel := 10, Price := 1000, Image := "", CreatedAt := 0, UpdatedAt := 0 }) }, ?_⟩
  unfold web.ChargeOnce
  simp only [World.emit]
  split <;> rename_i h <;> simp [h, logged]

/-- The map `Receipt` builds is the one of the specification. -/
theorem Receipt_data (Form : web.Values) :
    web.Data.set (web.Data.set (web.Data.set (web.Data.set (web.Data.set (web.Data.set []
      "cardholder" (web.Value.str (web.Values.Get Form "cardholder-name")))
      "email" (web.Value.str (web.Values.Get Form "cardholder-email")))
      "pi" (web.Value.str (web.Values.Get Form "payment-intent")))
      "pm" (web.Value.str (web.Values.Get Form "payment-method")))
      "pa" (web.Value.str (web.Values.Get Form "payment-amount")))
      "pc" (web.Value.str (web.Values.Get Form "payment-currency")) = web.receiptData Form := by
  simp [web.Data.set, web.receiptData, web.receiptFields]

/-- Trace of `Receipt` when the form parses: the parse, one render call, its log entry. -/
theorem Receipt_trace_ok (app : web.application) (r : web.Request) (w : World)
    (Form : web.Values) (h : r.ParseForm = (Form, none)) :
    (web.Receipt app r w).trace =
      w.trace ++ (Event.ParseForm ::
        Event.renderTemplate "receipt" { Data := web.receiptData Form } [] ::
        logged (app.renderTemplate r "receipt" { Data := web.receiptData Form } [])) := by
  unfold web.Receipt
  simp only [World.emit, h, Receipt_data]
  split <;> rename_i h' <;> simp [h', logged]

/-- Trace of `Receipt` when the form does not parse: the parse and the log entry. -/
theorem Receipt_trace_err (app : web.application) (r : web.Request) (w : World)
    (Form : web.Values) (err : Error) (h : r.ParseForm = (Form, some err)) :
    (web.Receipt app r w).trace = w.trace ++ [Event.ParseForm, Event.Println err] := by
  unfold web.Receipt
  simp [World.emit, h]

/-- The entries `logged` adds are neither writes nor processor calls nor render calls. -/
theorem logged_inert (o : Option Error) :
    ∀ e ∈ logged o, e.isWrite = false ∧ e.isProcessorCall = false ∧ e.isRender = false := by
  cases o with
  | none => intro e he; simp [logged] at he
  | some err =>
    intro e he
    simp only [logged, List.mem_singleton] at he
    subst he
    exact ⟨rfl, rfl, rfl⟩

/-- The write discipline is not trivial: a database write with no charge before it is
rejected. -/
theorem writesGuarded_rejects_unpaid_write (qry : String) (args : List SqlValue)
    (res : Except Error sql.Result) :
    writesGuarded [Event.ExecContext qry args res] = false := by
  simp [writesGuarded, guardedFrom, Event.isWrite, Event.isSuccessfulCharge]

/-- The write discipline rejects an order insert whose transaction id was not inserted
before it, even after a successful charge. -/
theorem writesGuarded_rejects_dangling_order (key : String) (params : stripe.PaymentIntentParams)
    (pi : Option stripe.PaymentIntent) (w t : Int) (rest : List SqlValue)
    (res : Except Error sql.Result) :
    writesGuarded [Event.paymentintentNew key params (pi, none),
      Event.ExecContext models.InsertOrder_qry (SqlValue.int w :: SqlValue.int t :: rest) res] =
      false := by
  simp [writesGuarded, guardedFrom, Event.isWrite, Event.referencedTransaction,
    Event.insertedTransaction, Event.isSuccessfulCharge]

/-- The statements of the transaction insert and of the order insert differ. -/
theorem InsertTransaction_qry_ne_InsertOrder_qry :
    models.InsertTransaction_qry ≠ models.InsertOrder_qry := by
  simp [models.InsertTransaction_qry, models.InsertOrder_qry]

/-- The write discipline accepts charge, transaction insert, order insert in this order
when the order references the id the transaction insert returned. -/
theorem writesGuarded_accepts_checkout (key : String) (params : stripe.PaymentIntentParams)
    (pi : Option stripe.PaymentIntent) (args rest : List SqlValue) (w id : Int)
    (res : Except Error sql.Result) :
    writesGuarded [Event.paymentintentNew key params (pi, none),
      Event.ExecContext models.InsertTransaction_qry args (Except.ok ⟨(id, none)⟩),
      Event.ExecContext models.InsertOrder_qry (SqlValue.int w :: SqlValue.int (int id) :: rest) res] =
      true := by
  have hne := InsertTransaction_qry_ne_InsertOrder_qry
  have href : (Event.ExecContext models.InsertTransaction_qry args
      (Except.ok ⟨(id, none)⟩)).referencedTransaction = none := by
    unfold Event.referencedTransaction
    split
    · rename_i heq
      cases heq
      simp [hne]
    · rfl
  simp only [writesGuarded, guardedFrom, href]
  simp [Event.isWrite, Event.referencedTransaction, Event.insertedTransaction,
    Event.isSuccessfulCharge]

/-- Trace of `InsertTransaction`: one exec of its statement, whatever came before. -/
theorem InsertTransaction_trace (m : models.DBModel) (txn : models.Transaction) (w : World) :
    ∃ args, (models.InsertTransaction m txn w).2.trace =
      w.trace ++ [Event.ExecContext models.InsertTransaction_qry args
        (m.DB.ExecContext models.InsertTransaction_qry args)] := by
  refine ⟨[SqlValue.int txn.Amount, SqlValue.text txn.Currency, SqlValue.text txn.LastFour,
    SqlValue.text txn.BankReturnCode, SqlValue.int txn.TransactionStatusID,
    SqlValue.int txn.ExpiryMonth, SqlValue.int txn.ExpiryYear], ?_⟩
  unfold models.InsertTransaction
  simp only [World.emit]
  repeat' split
  all_goals rfl

/-- Trace of `InsertOrder`: one exec of its statement, whatever came before. -/
theorem InsertOrder_trace (m : models.DBModel) (order : models.Order) (w : World) :
    ∃ args, (models.InsertOrder m order w).2.trace =
      w.trace ++ [Event.ExecContext models.InsertOrder_qry args
        (m.DB.ExecContext models.InsertOrder_qry args)] := by
  refine ⟨[SqlValue.int order.WidgetID, SqlValue.int order.TransactionID,
    SqlValue.int order.StatusID, SqlValue.int order.Quantity, SqlValue.int order.Amount,
    SqlValue.int order.CustomerID], ?_⟩
  unfold models.InsertOrder
  simp only [World.emit]
  repeat' split
  all_goals rfl

/-- Trace of `InsertUser`: one exec of its statement, whatever came before. -/
theorem InsertUser_trace (m : models.DBModel) (user : models.User) (w : World) :
    ∃ args, (models.InsertUser m user w).2.trace =
      w.trace ++ [Event.ExecContext models.InsertUser_sql args
        (m.DB.ExecContext models.InsertUser_sql args)] := by
  refine ⟨[SqlValue.text user.FirstName, SqlValue.text user.LastName,
    SqlValue.text user.Email, SqlValue.text user.Password], ?_⟩
  unfold models.InsertUser
  simp only [World.emit]
  repeat' split
  all_goals rfl

/-- Trace of `InsertCustomer`: one exec of its statement, whatever came before. -/
theorem InsertCustomer_trace (m : models.DBModel) (customer : models.Customer) (w : World) :
    ∃ args, (models.InsertCustomer m customer w).2.trace =
      w.trace ++ [Event.ExecContext models.InsertCustomer_sql args
        (m.DB.ExecContext models.InsertCustomer_sql args)] := by
  refine ⟨[SqlValue.text customer.FirstName, SqlValue.text customer.LastName,
    SqlValue.text customer.Email], ?_⟩
  unfold models.InsertCustomer
  simp only [World.emit]
  repeat' split
  all_goals rfl

/-- A database write at the end of a trace without a successful charge breaks the write
discipline. -/
theorem guardedFrom_unpaid_write (pre : List Event) (wr : Event) (hw : wr.isWrite = true) :
    ∀ txns : List Int, (∀ e ∈ pre, e.isSuccessfulCharge = false) →
      guardedFrom false txns (pre ++ [wr]) = false := by
  induction pre with
  | nil =>
    intro txns _
    simp [guardedFrom, hw]
  | cons e es ih =>
    intro txns h
    have he : e.isSuccessfulCharge = false := h e (List.mem_cons_self _ _)
    have hes : ∀ e' ∈ es, e'.isSuccessfulCharge = false :=
      fun e' he' => h e' (List.mem_cons_of_mem _ he')
    have hrest := ih (match e.insertedTransaction with
      | some id => id :: txns
      | none => txns) hes
    simp only [List.cons_append, guardedFrom, he, Bool.false_or]
    rw [show es.append [wr] = es ++ [wr] from rfl, hrest, Bool.and_false]

/-- C7, as stated, fails: nothing stops a database write after a declined charge, nor an
order insert whose transaction was never inserted. After a charge the processor declines,
`InsertTransaction` still executes its statement and returns the new id; after a
successful charge, `InsertOrder` with transaction id 7 executes although no transaction
insert came before. Both traces break the write discipline. -/
theorem insert_after_declined_charge :
    (cards.Charge sample.declining sample.card "usd" 1000 sample.world).1.2.2 ≠ none ∧
    (models.InsertTransaction sample.db sample.txn
      (cards.Charge sample.declining sample.card "usd" 1000 sample.world).2.2).1 = (7, none) ∧
    writesGuarded (models.InsertTransaction sample.db sample.txn
      (cards.Charge sample.declining sample.card "usd" 1000 sample.world).2.2).2.trace = false ∧
    (cards.Charge sample.accepting sample.card "usd" 1000 sample.world).1.2.2 = none ∧
    writesGuarded (models.InsertOrder sample.db sample.order
      (cards.Charge sample.accepting sample.card "usd" 1000 sample.world).2.2).2.trace = false := by
  refine ⟨?_, ?_, ?_, ?_, ?_⟩
  · simp [cards.Charge, cards.CreatePaymentIntent, sample.declining]
  · simp [models.InsertTransaction, sample.db, int, wrap64]
  · simp [models.InsertTransaction, cards.Charge, cards.CreatePaymentIntent, sample.declining,
      sample.db, sample.world, World.emit, writesGuarded, guardedFrom, Event.isWrite,
      Event.isSuccessfulCharge]
  · simp [cards.Charge, cards.CreatePaymentIntent, sample.accepting]
  · simp [models.InsertOrder, cards.Charge, cards.CreatePaymentIntent, sample.accepting,
      sample.db, sample.world, sample.order, World.emit, writesGuarded, guardedFrom,
      Event.isWrite, Event.referencedTransaction, Event.insertedTransaction,
      Event.isSuccessfulCharge]

/-- C7, amended: the code does not tie database writes to a charge. The handlers add to
the trace only form-parse, render and log calls, so no insert and no processor call; a
charge, declined or not, adds exactly its one processor call and no database write; each
of the four inserts executes its one statement in every world, whatever came before it.
Ordering charge before writes is left to the caller: an insert run on a trace without a
successful charge breaks the write discipline. -/
theorem writes_left_to_caller (app : web.application) (r : web.Request) (w : World)
    (New : Processor) (c : cards.Card) (currency : String) (amount : Int)
    (m : models.DBModel) (txn : models.Transaction) (order : models.Order)
    (user : models.User) (customer : models.Customer) :
    (∀ handler ∈ [web.VirtualTerminal, web.Receipt, web.ChargeOnce],
      ∃ evs, (handler app r w).trace = w.trace ++ evs ∧
        ∀ e ∈ evs, e.isWrite = false ∧ e.isProcessorCall = false) ∧
    (∃ e, (cards.Charge New c currency amount w).2.2.trace = w.trace ++ [e] ∧
        e.isProcessorCall = true ∧ e.isWrite = false) ∧
    (∀ p ∈ [((models.InsertTransaction m txn w).2, models.InsertTransaction_qry),
            ((models.InsertOrder m order w).2, models.InsertOrder_qry),
            ((models.InsertUser m user w).2, models.InsertUser_sql),
            ((models.InsertCustomer m customer w).2, models.InsertCustomer_sql)],
      (∃ args, p.1.trace = w.trace ++ [Event.ExecContext p.2 args (m.DB.ExecContext p.2 args)]) ∧
      ((∀ e ∈ w.trace, e.isSuccessfulCharge = false) → writesGuarded p.1.trace = false)) := by
  refine ⟨?_, ?_, ?_⟩
  · intro handler hmem
    simp only [List.mem_cons, List.mem_singleton, List.not_mem_nil, or_false] at hmem
    rcases hmem with rfl | rfl | rfl
    · refine ⟨_, VirtualTerminal_trace app r w, ?_⟩
      intro e he
      rcases List.mem_cons.mp he with rfl | he
      · exact ⟨rfl, rfl⟩
      · exact ⟨(logged_inert _ e he).1, (logged_inert _ e he).2.1⟩
    · rcases hp : r.ParseForm with ⟨Form, _ | err⟩
      · refine ⟨_, Receipt_trace_ok app r w Form hp, ?_⟩
        intro e he
        rcases List.mem_cons.mp he with rfl | he
        · exact ⟨rfl, rfl⟩
        rcases List.mem_cons.mp he with rfl | he
        · exact ⟨rfl, rfl⟩
        · exact ⟨(logged_inert _ e he).1, (logged_inert _ e he).2.1⟩
      · refine ⟨_, Receipt_trace_err app r w Form err hp, ?_⟩
        intro e he
        simp only [List.mem_cons, List.mem_singleton, List.not_mem_nil, or_false] at he
        rcases he with rfl | rfl <;> exact ⟨rfl, rfl⟩
    · obtain ⟨td, htd⟩ := ChargeOnce_trace app r w
      refine ⟨_, htd, ?_⟩
      intro e he
      rcases List.mem_cons.mp he with rfl | he
      · exact ⟨rfl, rfl⟩
      · exact ⟨(logged_inert _ e he).1, (logged_inert _ e he).2.1⟩
  · refine ⟨Event.paymentintentNew c.Secret
      { Amount := some (int64 amount), Currency := some currency }
      (New c.Secret { Amount := some (int64 amount), Currency := some currency }), ?_, rfl, rfl⟩
    show (cards.CreatePaymentIntent New c currency amount w).2.2.trace = _
    rw [CreatePaymentIntent_state]
  · have close : ∀ (w' : World) (qry : String),
        (∃ args, w'.trace = w.trace ++ [Event.ExecContext qry args (m.DB.ExecContext qry args)]) →
        (∃ args, w'.trace = w.trace ++ [Event.ExecContext qry args (m.DB.ExecContext qry args)]) ∧
        ((∀ e ∈ w.trace, e.isSuccessfulCharge = false) → writesGuarded w'.trace = false) := by
      intro w' qry h
      refine ⟨h, ?_⟩
      intro hpre
      obtain ⟨args, hargs⟩ := h
      rw [hargs]
      exact guardedFrom_unpaid_write w.trace
        (Event.ExecContext qry args (m.DB.ExecContext qry args)) rfl [] hpre
    intro p hp
    simp only [List.mem_cons, List.mem_singleton, List.not_mem_nil, or_false] at hp
    rcases hp with rfl | rfl | rfl | rfl
    · exact close _ _ (InsertTransaction_trace m txn w)
    · exact close _ _ (InsertOrder_trace m order w)
    · exact close _ _ (InsertUser_trace m user w)
    · exact close _ _ (InsertCustomer_trace m customer w)

/-- Witness of the amended C7: from the empty trace, `InsertTransaction` executes its
statement, and the resulting trace breaks the write discipline. -/
theorem writes_left_to_caller_witness :
    writesGuarded (models.InsertTransaction sample.db sample.txn sample.world).2.trace = false :=
  ((writes_left_to_caller sample.app sample.request sample.world sample.accepting sample.card
    "usd" 1000 sample.db sample.txn sample.order sample.user sample.customer).2.2
    _ (List.mem_cons_self _ _)).2 (fun _ he => absurd he (List.not_mem_nil _))

/-! ## The persistence layer -/

/-- C8: each of the four inserts returns `(0, err)` when the store's exec fails with
`err`, `(0, err)` when the last-insert-id lookup fails with `err`, and otherwise the
store's last insert id with a nil error. Each issues exactly one parameterised statement. -/
theorem insert_results (m : models.DBModel) (w : World) (txn : models.Transaction)
    (order : models.Order) (user : models.User) (customer : models.Customer) :
    ∀ p ∈ [((models.InsertTransaction m txn w).1,
              m.DB.ExecContext models.InsertTransaction_qry
                [SqlValue.int txn.Amount, SqlValue.text txn.Currency, SqlValue.text txn.LastFour,
                 SqlValue.text txn.BankReturnCode, SqlValue.int txn.TransactionStatusID,
                 SqlValue.int txn.ExpiryMonth, SqlValue.int txn.ExpiryYear]),
           ((models.InsertOrder m order w).1,
              m.DB.ExecContext models.InsertOrder_qry
                [SqlValue.int order.WidgetID, SqlValue.int order.TransactionID,
                 SqlValue.int order.StatusID, SqlValue.int order.Quantity,
                 SqlValue.int order.Amount, SqlValue.int order.CustomerID]),
           ((models.InsertUser m user w).1,
              m.DB.ExecContext models.InsertUser_sql
                [SqlValue.text user.FirstName, SqlValue.text user.LastName,
                 SqlValue.text user.Email, SqlValue.text user.Password]),
           ((models.InsertCustomer m customer w).1,
              m.DB.ExecContext models.InsertCustomer_sql
                [SqlValue.text customer.FirstName, SqlValue.text customer.LastName,
                 SqlValue.text customer.Email])],
      (∀ err, p.2 = Except.error err → p.1 = (0, some err)) ∧
      (∀ result id err, p.2 = Except.ok result → result.LastInsertId = (id, some err) →
        p.1 = (0, some err)) ∧
      (∀ result id, p.2 = Except.ok result → result.LastInsertId = (id, none) → IsInt64 id →
        p.1 = (id, none)) := by
  intro p hp
  simp only [List.mem_cons, List.mem_singleton, List.not_mem_nil, or_false] at hp
  rcases hp with rfl | rfl | rfl | rfl
  · refine ⟨?_, ?_, ?_⟩
    · intro err h
      simp only at h
      simp only [models.InsertTransaction, h]
    · intro result id err h hid
      simp only at h
      simp only [models.InsertTransaction, h, hid]
    · intro result id h hid hrange
      simp only at h
      simp only [models.InsertTransaction, h, hid, int, wrap64_of_isInt64 id hrange]
  · refine ⟨?_, ?_, ?_⟩
    · intro err h
      simp only at h
      simp only [models.InsertOrder, h]
    · intro result id err h hid
      simp only at h
      simp only [models.InsertOrder, h, hid]
    · intro result id h hid hrange
      simp only at h
      simp only [models.InsertOrder, h, hid, int, wrap64_of_isInt64 id hrange]
  · refine ⟨?_, ?_, ?_⟩
    · intro err h
      simp only at h
      simp only [models.InsertUser, h]
    · intro result id err h hid
      simp only at h
      simp only [models.InsertUser, h, hid]
    · intro result id h hid hrange
      simp only at h
      simp only [models.InsertUser, h, hid, int, wrap64_of_isInt64 id hrange]
  · refine ⟨?_, ?_, ?_⟩
    · intro err h
      simp only at h
      simp only [models.InsertCustomer, h]
    · intro result id err h hid
      simp only at h
      simp only [models.InsertCustomer, h, hid]
    · intro result id h hid hrange
      simp only at h
      simp only [models.InsertCustomer, h, hid, int, wrap64_of_isInt64 id hrange]

/-- Witness of C8: against a store that assigns the id 7, `InsertTransaction` returns
`(7, nil)`. -/
theorem insert_results_witness :
    (models.InsertTransaction sample.db sample.txn sample.world).1 = (7, none) :=
  (insert_results sample.db sample.world sample.txn sample.order sample.user sample.customer
    _ (List.mem_cons_self _ _)).2.2 ⟨(7, none)⟩ 7 rfl rfl (by decide)

/-- Scanning the selected columns of a stored row fills the widget with the stored values. -/
theorem assignAll_selected (row : store.WidgetRow) :
    sql.assignAll 0 models.GetWidget_dest row.selected models.Widget.zero =
      (row.toWidget, none) := by
  simp [sql.assignAll, models.GetWidget_dest, store.WidgetRow.selected, sql.convertInt,
    sql.convertString, sql.convertTime, models.Widget.zero, store.WidgetRow.toWidget]

/-- C9: `GetWidget(id)` against a store without a widget row of that id fails with the
store's own not-found error, unwrapped; against a store that holds the row of that id
(ids being a primary key) it returns a nil error and the widget whose id, name,
description, inventory level and price are the stored values. -/
theorem GetWidget_store (m : models.DBModel) (s : store.Store) (id : Int) (w : World)
    (hq : m.DB.QueryRowContext = s.QueryRowContext) :
    ((∀ r ∈ s.widgets, r.id ≠ id) →
      (models.GetWidget m id w).1.2 = some sql.ErrNoRows) ∧
    (∀ row ∈ s.widgets, row.id = id → (∀ r ∈ s.widgets, r.id = id → r = row) →
      (models.GetWidget m id w).1 = (row.toWidget, none) ∧
      (models.GetWidget m id w).1.1.ID = row.id ∧
      (models.GetWidget m id w).1.1.Name = row.name ∧
      (models.GetWidget m id w).1.1.Description = row.description ∧
      (models.GetWidget m id w).1.1.InventoryLevel = row.inventory_level ∧
      (models.GetWidget m id w).1.1.Price = row.price) := by
  constructor
  · intro hnone
    have hf : s.widgets.filter (fun r => decide (r.id = id)) = [] := by
      rw [List.filter_eq_nil_iff]
      intro r hr
      simpa using hnone r hr
    simp [models.GetWidget, hq, store.Store.QueryRowContext, hf, sql.Row.Scan]
  · intro row hrow hid huniq
    have hmem : row ∈ s.widgets.filter (fun r => decide (r.id = id)) := by
      rw [List.mem_filter]
      exact ⟨hrow, by simpa using hid⟩
    have hr : (models.GetWidget m id w).1 = (row.toWidget, none) := by
      cases hf : s.widgets.filter (fun r => decide (r.id = id)) with
      | nil => rw [hf] at hmem; cases hmem
      | cons x xs =>
        have hx : x ∈ s.widgets.filter (fun r => decide (r.id = id)) := by
          rw [hf]; exact List.mem_cons_self _ _
        rw [List.mem_filter] at hx
        have hxr : x = row := huniq x hx.1 (by simpa using hx.2)
        subst hxr
        have hlen : x.selected.length = models.GetWidget_dest.length := rfl
        simp [models.GetWidget, hq, store.Store.QueryRowContext, hf, sql.Row.Scan, hlen,
          assignAll_selected]
    rw [hr]
    exact ⟨rfl, rfl, rfl, rfl, rfl, rfl⟩

/-- Witness of C9: the sample store returns widget 1 with its stored price 1000. -/
theorem GetWidget_store_witness :
    (models.GetWidget sample.storeDb 1 sample.world).1.1.Price = 1000 ∧
    (models.GetWidget sample.storeDb 999 sample.world).1.2 = some sql.ErrNoRows := by
  have h := GetWidget_store sample.storeDb sample.widgets 1 sample.world rfl
  have h' := GetWidget_store sample.storeDb sample.widgets 999 sample.world rfl
  constructor
  · have h1 := h.2 sample.widgetRow (by simp [sample.widgets]) rfl
      (by simp [sample.widgets, sample.widgetRow])
    rw [h1.2.2.2.2.2]
    rfl
  · exact h'.1 (by simp [sample.widgets, sample.widgetRow])

/-! ## The receipt handler -/

/-- C10: when the form parses, `Receipt` makes exactly one render call, for the page
"receipt", whose map has exactly six entries, each holding the submitted string of its
form field as it is; when form parsing fails it only logs the error: no render call, no
processor call, no database call. -/
theorem Receipt_hands_over_fields (app : web.application) (r : web.Request) (w : World) :
    (∀ Form, r.ParseForm = (Form, none) →
      (web.Receipt app r w).trace =
        w.trace ++ (Event.ParseForm ::
          Event.renderTemplate "receipt" { Data := web.receiptData Form } [] ::
          logged (app.renderTemplate r "receipt" { Data := web.receiptData Form } [])) ∧
      web.receiptData Form =
        [("cardholder", web.Value.str (web.Values.Get Form "cardholder-name")),
         ("email", web.Value.str (web.Values.Get Form "cardholder-email")),
         ("pi", web.Value.str (web.Values.Get Form "payment-intent")),
         ("pm", web.Value.str (web.Values.Get Form "payment-method")),
         ("pa", web.Value.str (web.Values.Get Form "payment-amount")),
         ("pc", web.Value.str (web.Values.Get Form "payment-currency"))] ∧
      (web.receiptData Form).length = 6 ∧
      ((web.receiptData Form).map Prod.fst).Nodup) ∧
    (∀ Form err, r.ParseForm = (Form, some err) →
      (web.Receipt app r w).trace = w.trace ++ [Event.ParseForm, Event.Println err] ∧
      (∀ e ∈ [Event.ParseForm, Event.Println err],
        e.isRender = false ∧ e.isProcessorCall = false ∧ e.isWrite = false)) := by
  constructor
  · intro Form h
    refine ⟨Receipt_trace_ok app r w Form h, rfl, rfl, ?_⟩
    simp [web.receiptData, web.receiptFields]
  · intro Form err h
    refine ⟨Receipt_trace_err app r w Form err h, ?_⟩
    intro e he
    simp only [List.mem_cons, List.mem_singleton, List.not_mem_nil, or_false] at he
    rcases he with rfl | rfl <;> exact ⟨rfl, rfl, rfl⟩

/-- Witness of C10: the sample form reaches the renderer unchanged, and the malformed
request is only logged. -/
theorem Receipt_hands_over_fields_witness :
    (web.Receipt sample.app sample.request sample.world).trace =
      [Event.ParseForm,
       Event.renderTemplate "receipt"
        { Data := [("cardholder", web.Value.str "Ada Lovelace"),
                   ("email", web.Value.str "ada@example.com"),
                   ("pi", web.Value.str "pi_1"), ("pm", web.Value.str "pm_1"),
                   ("pa", web.Value.str "1000"), ("pc", web.Value.str "usd")] } []] ∧
    (web.Receipt sample.app sample.badRequest sample.world).trace =
      [Event.ParseForm, Event.Println (Error.other "invalid URL escape")] := by
  have h := Receipt_hands_over_fields sample.app sample.request sample.world
  have h' := Receipt_hands_over_fields sample.app sample.badRequest sample.world
  constructor
  · rw [(h.1 sample.form rfl).1]
    simp [sample.world, sample.app, logged, web.receiptData, web.receiptFields, web.Values.Get,
      sample.form]
  · rw [(h'.2 (fun _ => []) (Error.other "invalid URL escape") rfl).1]
    rfl
